import Mathlib

/-
Shallow embedding of `src/acdeh/integration_hub.py` (class `IntegrationHub`).

Python dictionaries are modelled as insertion-ordered association lists with
`String` keys; Python values (payload fields, module records, configs, rules)
are modelled by the inductive type `Value`.  The external collaborators that
the hub calls over the network — the knowledge base (`has_integrity_rule`,
`get_transformation_rules`) and the Kafka producer (`send`) — are parameters
of the embedded functions, gathered in the `Oracle` structure, since their
implementations live outside the hub (`knowledge_base.py` is truncated before
`has_integrity_rule` is defined and only issues opaque network queries).
There is no HTTP oracle: `integration_hub.py` never imports `requests`, so
`_call_module_api` resolves the name `requests` at line 89 — before any
argument is evaluated — and unconditionally raises
`NameError: name 'requests' is not defined`; no HTTP request can ever be
issued.  Python exceptions are modelled by the `Except Err` monad; observable
side effects (Kafka publishes, dashboard notifications) are returned as a
list of `Effect`s.
-/

set_option autoImplicit false

namespace ACDEH

/-- A Python value as it occurs in the hub's payloads, configs and records.
Dictionary keys are restricted to strings: every key that appears in the
hub's code paths (payload field names, config keys, record keys, rule keys,
module ids) is a string. -/
inductive Value where
  | none : Value
  | bool : Bool → Value
  | int : Int → Value
  | str : String → Value
  | dict : List (String × Value) → Value
  | list : List Value → Value

/-- A Python dict with string keys, as an insertion-ordered association list
with unique keys (the invariant maintained by `dictSet`). -/
abbrev Dict := List (String × Value)

/-- The module registry `self.modules : Dict[str, Dict]`: module id to module
record (a `Value.dict`). -/
abbrev Modules := Dict

/-- Lookup of a key in a Python dict (`d[k]` so far as presence is concerned;
`Option.none` models a missing key). -/
def dictFind : Dict → String → Option Value
  | [], _ => Option.none
  | (k', v') :: rest, k => if k' = k then some v' else dictFind rest k

/-- Python dict item assignment `d[k] = v`: replaces the value at an existing
key in place, otherwise appends the new binding at the end. -/
def dictSet : Dict → String → Value → Dict
  | [], k, v => [(k, v)]
  | (k', v') :: rest, k, v =>
      if k' = k then (k, v) :: rest else (k', v') :: dictSet rest k v

/-- Python `d.get(k)`: the stored value, or Python `None` when absent. -/
def pyGet (d : Dict) (k : String) : Value :=
  (dictFind d k).getD Value.none

/-- Python truthiness of a value, as used by `if self.modules[target].get('endpoint'):`. -/
def Value.truthy : Value → Bool
  | .none => false
  | .bool b => b
  | .int n => n != 0
  | .str s => !s.isEmpty
  | .dict d => !d.isEmpty
  | .list l => !l.isEmpty

/-- The Python exceptions that the hub's code can raise. -/
inductive Err where
  | valueError : String → Err
  | keyError : String → Err
  | typeError : String → Err
  | nameError : String → Err
  | kafkaError : String → Err
  | schemaError : String → Err
deriving DecidableEq

/-- An observable side effect performed by the hub.  There is no HTTP-post
effect: the missing `requests` import makes `_call_module_api` raise before
any request can be issued. -/
inductive Effect where
  | kafkaSend : String → Dict → Effect
  | dashboard : String → Effect

/-- The external collaborators of the hub, as oracles: the knowledge base's
`has_integrity_rule` and `get_transformation_rules` (both network queries;
the latter may raise), and the Kafka producer (whose `send` may raise
synchronously on transport rejection). -/
structure Oracle where
  hasRule : String → String → Bool
  rules : String → String → Except Err (List Dict)
  kafka : String → Dict → Except Err Unit

/-- Python `v.get(k)` on a value expected to be a dict
(`self.modules[target].get('endpoint')`); a non-dict has no `get` attribute. -/
def valueGet (v : Value) (k : String) : Except Err Value :=
  match v with
  | .dict d => .ok (pyGet d k)
  | _ => .error (.typeError "object has no attribute get")

/-- Embedding of `self.modules[mid]['metrics'][key] += 1` (integration_hub.py
lines 59 and 63): each subscript raises `KeyError` when the key is missing,
and the read happens before any write, so a raising increment mutates
nothing. -/
def bumpMetric (modules : Modules) (mid key : String) : Except Err Modules :=
  match dictFind modules mid with
  | Option.none => .error (.keyError mid)
  | some recV =>
    match recV with
    | .dict recd =>
      match dictFind recd "metrics" with
      | Option.none => .error (.keyError "metrics")
      | some mV =>
        match mV with
        | .dict md =>
          match dictFind md key with
          | Option.none => .error (.keyError key)
          | some v =>
            match v with
            | .int n =>
                .ok (dictSet modules mid
                  (.dict (dictSet recd "metrics" (.dict (dictSet md key (.int (n + 1)))))))
            | _ => .error (.typeError "unsupported operand type for add")
        | _ => .error (.typeError "object is not subscriptable")
    | _ => .error (.typeError "object is not subscriptable")

/-- Observer reading `modules[mid]['metrics'][key]`, used to state the
metrics claims (`Option.none` when any link is missing or mistyped). -/
def getMetric (modules : Modules) (mid key : String) : Option Value :=
  match dictFind modules mid with
  | some (.dict recd) =>
    match dictFind recd "metrics" with
    | some (.dict md) => dictFind md key
    | _ => Option.none
  | _ => Option.none

/-- Python `data.get(k)` where the key is the value read from a rule dict
(`data.get(rule['source'])`): a string key is looked up; any other hashable
key misses in a string-keyed payload and yields Python `None`; dicts and
lists are unhashable and raise `TypeError`. -/
def pyGetV (data : Dict) (k : Value) : Except Err Value :=
  match k with
  | .str s => .ok (pyGet data s)
  | .dict _ => .error (.typeError "unhashable type: dict")
  | .list _ => .error (.typeError "unhashable type: list")
  | _ => .ok Value.none

/-- One iteration of the loop in `IntegrationHub._transform_data`
(integration_hub.py lines 73-75):

    for rule in rules:
        if 'fields' in rule:
            transformed[rule['target']] = data.get(rule['source'])

Python evaluates the right-hand side before the assignment target, so
`rule['source']` is dereferenced first, then `data.get`, then
`rule['target']`; each bare subscript raises `KeyError` when absent.  The
modelling restricts assignment keys to strings (a non-string hashable
`rule['target']` would create a non-string key in the result, a case outside
the string-keyed dict model and outside every code path considered). -/
def applyRule (data : Dict) (rule : Dict) (acc : Dict) : Except Err Dict :=
  if (dictFind rule "fields").isSome then
    match dictFind rule "source" with
    | Option.none => .error (.keyError "source")
    | some sv =>
      match pyGetV data sv with
      | .error e => .error e
      | .ok v =>
        match dictFind rule "target" with
        | Option.none => .error (.keyError "target")
        | some tv =>
          match tv with
          | .str t => .ok (dictSet acc t v)
          | _ => .error (.typeError "unsupported assignment key")
  else
    .ok acc

/-- The loop of `IntegrationHub._transform_data` over the fetched rules,
starting from `transformed = {}` and threading the accumulator. -/
def transformLoop (data : Dict) : List Dict → Dict → Except Err Dict
  | [], acc => .ok acc
  | rule :: rest, acc =>
    match applyRule data rule acc with
    | .error e => .error e
    | .ok acc' => transformLoop data rest acc'

/-- Embedding of `IntegrationHub._transform_data` (integration_hub.py lines
66-80): fetch the rules from the knowledge base (a network call that may
raise), then fold the rule loop over an initially empty result; the
`except` clause only logs and re-raises, so it is the identity on the
propagated error. -/
def transform_data (o : Oracle) (data : Dict) (source target : String) :
    Except Err Dict :=
  match o.rules source target with
  | .error e => .error e
  | .ok rules => transformLoop data rules []

/-- Embedding of `IntegrationHub._call_module_api` (integration_hub.py lines
82-102).  Line 85 reads `self.modules[module_id]['config']` (bare
subscripts, each raising `KeyError` when absent) and line 86 reads
`config.get('api_key')` (an attribute error on a non-dict).  Line 89 then
calls `requests.post(...)`, but `requests` is never imported by
`integration_hub.py`, and Python resolves the callable before evaluating any
argument, so the call unconditionally raises
`NameError: name 'requests' is not defined` before any HTTP request is
issued (in particular `config['endpoint']` is never dereferenced).  The
`except requests.exceptions.RequestException` clause at line 100 evaluates
`requests.exceptions` and raises the same `NameError` again, which
propagates; either way the caller observes that `NameError`.  The function
can never return a response body, and the effect list is always empty. -/
def call_module_api (modules : Modules) (module_id endpoint : String)
    (data : Dict) : Except Err Value × List Effect :=
  match dictFind modules module_id with
  | Option.none => (.error (.keyError module_id), [])
  | some recV =>
    match recV with
    | .dict recd =>
      match dictFind recd "config" with
      | Option.none => (.error (.keyError "config"), [])
      | some cfgV =>
        match cfgV with
        | .dict _ =>
          (.error (.nameError "name requests is not defined"), [])
        | _ => (.error (.typeError "object has no attribute get"), [])
    | _ => (.error (.typeError "object is not subscriptable"), [])

/-- Control flow of the `try` body of `IntegrationHub.integrate`: either an
exception was raised (`err`), or the synchronous API branch returned early —
skipping the success increment on line 59 (`apiReturn`) — or the Kafka
publish succeeded and control reaches the success increment
(`publishDone`). -/
inductive BodyOutcome where
  | err : Err → List Effect → BodyOutcome
  | apiReturn : Value → List Effect → BodyOutcome
  | publishDone : List Effect → BodyOutcome

/-- Embedding of the `try` body of `IntegrationHub.integrate`
(integration_hub.py lines 44-59) up to, but not including, the success
increment:

    if not self.knowledge_base.has_integrity_rule(source, target):
        raise ValueError(...)
    transformed_data = self._transform_data(data, source, target)
    if self.modules[target].get('endpoint'):
        return self._call_module_api(target, 'integrate', transformed_data)
    else:
        self.kafka_producer.send(f"{target}_data", value=transformed_data)

Note that line 52 dereferences `self.modules[target]` (raising `KeyError`
for an unregistered target) and reads the `'endpoint'` key of the module
RECORD, not of its `'config'` entry. -/
def integrateTryCore (o : Oracle) (modules : Modules) (source target : String)
    (data : Dict) : BodyOutcome :=
  if o.hasRule source target = false then
    .err (.valueError ("No integration rule between " ++ source ++ " and " ++ target ++ ".")) []
  else
    match transform_data o data source target with
    | .error e => .err e []
    | .ok transformed =>
      match dictFind modules target with
      | Option.none => .err (.keyError target) []
      | some recV =>
        match valueGet recV "endpoint" with
        | .error e => .err e []
        | .ok epv =>
          if epv.truthy then
            match call_module_api modules target "integrate" transformed with
            | (.ok v, effs) => .apiReturn v effs
            | (.error e, effs) => .err e effs
          else
            match o.kafka (target ++ "_data") transformed with
            | .error e => .err e []
            | .ok _ => .publishDone [.kafkaSend (target ++ "_data") transformed]

/-- Embedding of `IntegrationHub.integrate` (integration_hub.py lines
41-64).  After the `try` body: the early API return bypasses the success
increment; the publish path increments `success` (which may itself raise for
an unregistered source); any exception reaches the `except` clause, which
increments `failure` (which may itself raise `KeyError` for an unregistered
source, replacing the originating error) and re-raises.  Returns the Python
return value (`None` on the publish path), the effects performed, and the
updated registry. -/
def integrate (o : Oracle) (modules : Modules) (source target : String)
    (data : Dict) : Except Err Value × List Effect × Modules :=
  match integrateTryCore o modules source target data with
  | .apiReturn v effs => (.ok v, effs, modules)
  | .publishDone effs =>
    match bumpMetric modules source "success" with
    | .ok mods' => (.ok Value.none, effs, mods')
    | .error e =>
      match bumpMetric modules source "failure" with
      | .ok mods' => (.error e, effs, mods')
      | .error e' => (.error e', effs, modules)
  | .err e effs =>
    match bumpMetric modules source "failure" with
    | .ok mods' => (.error e, effs, mods')
    | .error e' => (.error e', effs, modules)

/-- Embedding of `IntegrationHub.register_module` (integration_hub.py lines
18-39), parameterised by the outcome of the knowledge base's
`validate_schema` network call: raise `ValueError` if the id is present,
propagate a schema-validation failure (the `except` clause only logs and
re-raises), else insert the record with status `active` and zero metrics and
notify the dashboard (whose own failures are swallowed). -/
def register_module (validate : Except Err Unit) (modules : Modules)
    (module_id : String) (config : Dict) :
    Except Err Unit × List Effect × Modules :=
  if (dictFind modules module_id).isSome then
    (.error (.valueError ("Module " ++ module_id ++ " already registered.")), [], modules)
  else
    match validate with
    | .error e => (.error e, [], modules)
    | .ok _ =>
      (.ok (),
       [.dashboard ("Module " ++ module_id ++ " registered.")],
       dictSet modules module_id
         (.dict [("config", .dict config), ("status", .str "active"),
                 ("metrics", .dict [("success", .int 0), ("failure", .int 0)])]))

/-
Concrete test fixtures, following the scenario of the specification: module
`A` registered with an empty config, module `B` registered with
`{endpoint: "http://b.local", apiKey: "k"}` (the code reads the config keys
`endpoint` and `api_key`), the rule store allowing every pair with the single
rule mapping field `x` to field `y`.
-/

/-- Config of module `B` in the scenario: an endpoint and an API key. -/
def cfgB : Dict := [("endpoint", .str "http://b.local"), ("api_key", .str "k")]

/-- Registry holding `A` (empty config) and `B` (config `cfgB`), built by two
successful `register_module` calls. -/
def modsAB : Modules :=
  (register_module (.ok ()) (register_module (.ok ()) [] "A" []).2.2 "B" cfgB).2.2

/-- The scenario's transformation rule mapping source field `x` to target
field `y` (carrying a `fields` entry, which is what the transform loop tests
for). -/
def ruleXY : Dict := [("fields", .bool true), ("source", .str "x"), ("target", .str "y")]

/-- Scenario oracle: every pair allowed, rule set `[ruleXY]`, Kafka
accepting every publish. -/
def oracleAB : Oracle where
  hasRule := fun _ _ => true
  rules := fun _ _ => .ok [ruleXY]
  kafka := fun _ _ => .ok ()

/-- Oracle whose permission check denies every pair. -/
def oracleDeny : Oracle where
  hasRule := fun _ _ => false
  rules := fun _ _ => .ok []
  kafka := fun _ _ => .ok ()

/-- Oracle whose rule-fetch query raises (knowledge store unavailable). -/
def oracleRulesFail : Oracle where
  hasRule := fun _ _ => true
  rules := fun _ _ => .error (.valueError "store down")
  kafka := fun _ _ => .ok ()

/-- The scenario payload `{x: 1, z: 2}`. -/
def payloadXZ : Dict := [("x", .int 1), ("z", .int 2)]

/-- A registry state in which `B`'s record carries a top-level `endpoint`
key (next to `config`, `status`, `metrics`).  `register_module` never
creates such a record, but the registry is a plain Python dict, so the state
is expressible; it is the only state in which line 52's
`self.modules[target].get('endpoint')` is truthy and the API branch runs. -/
def modsTopEndpoint : Modules :=
  [("A", .dict [("config", .dict []), ("status", .str "active"),
                ("metrics", .dict [("success", .int 0), ("failure", .int 0)])]),
   ("B", .dict [("config", .dict cfgB), ("status", .str "active"),
                ("metrics", .dict [("success", .int 0), ("failure", .int 0)]),
                ("endpoint", .str "http://b.local")])]

/-
Library lemmas about the dict model and the metrics accessors, shared by the
claim theorems below.
-/

/-- Looking up the key just assigned returns the assigned value. -/
theorem dictFind_dictSet_self (d : Dict) (k : String) (v : Value) :
    dictFind (dictSet d k v) k = some v := by
  induction d with
  | nil => simp [dictFind, dictSet]
  | cons hd tl ih =>
      obtain ⟨a, b⟩ := hd
      by_cases h : a = k
      · subst h; simp [dictFind, dictSet]
      · simp [dictFind, dictSet, h, ih]

/-- Assigning one key leaves the lookup of every other key unchanged. -/
theorem dictFind_dictSet_ne (d : Dict) (k : String) (v : Value) (q : String)
    (h : q ≠ k) : dictFind (dictSet d k v) q = dictFind d q := by
  induction d with
  | nil => simp [dictFind, dictSet, h.symm]
  | cons hd tl ih =>
      obtain ⟨a, b⟩ := hd
      by_cases ha : a = k
      · subst ha; simp [dictFind, dictSet, h.symm]
      · simp [dictFind, dictSet, ha, ih]

/-- Incrementing a metric of an unregistered module id raises `KeyError` for
that id (the first subscript of line 59/63 fails before any write). -/
theorem bumpMetric_absent (modules : Modules) (mid key : String)
    (h : dictFind modules mid = Option.none) :
    bumpMetric modules mid key = .error (.keyError mid) := by
  simp [bumpMetric, h]

/-- Incrementing a metric of a well-formed module record succeeds and
rewrites exactly that metric entry. -/
theorem bumpMetric_found (modules : Modules) (mid key : String)
    {recd md : Dict} {n : Int}
    (h1 : dictFind modules mid = some (.dict recd))
    (h2 : dictFind recd "metrics" = some (.dict md))
    (h3 : dictFind md key = some (.int n)) :
    bumpMetric modules mid key =
      .ok (dictSet modules mid
        (.dict (dictSet recd "metrics" (.dict (dictSet md key (.int (n + 1))))))) := by
  simp [bumpMetric, h1, h2, h3]

/-- Reading back the metric entry just written by a bump. -/
theorem getMetric_dictSet_self (modules : Modules) (mid key : String)
    (recd md : Dict) (v : Value) :
    getMetric (dictSet modules mid
      (.dict (dictSet recd "metrics" (.dict (dictSet md key v))))) mid key = some v := by
  simp [getMetric, dictFind_dictSet_self]

/-- Reading a different metric entry of the module just bumped sees the old
metrics dict. -/
theorem getMetric_dictSet_other (modules : Modules) (mid key key' : String)
    (recd md : Dict) (v : Value) (hne : key' ≠ key) :
    getMetric (dictSet modules mid
      (.dict (dictSet recd "metrics" (.dict (dictSet md key v))))) mid key' =
      dictFind md key' := by
  simp [getMetric, dictFind_dictSet_self, dictFind_dictSet_ne _ _ _ _ hne]

/-- Unfolding of `getMetric` on a well-formed record. -/
theorem getMetric_eq (modules : Modules) (mid key : String) {recd md : Dict}
    (h1 : dictFind modules mid = some (.dict recd))
    (h2 : dictFind recd "metrics" = some (.dict md)) :
    getMetric modules mid key = dictFind md key := by
  simp [getMetric, h1, h2]

/-- When the `try` body of `integrate` raises and the source module is
registered with integer metrics, the `except` clause increments the failure
counter and re-raises the originating error. -/
theorem integrate_err_found (o : Oracle) (modules : Modules)
    (source target : String) (data : Dict) (e : Err) (effs : List Effect)
    {recd md : Dict} {n : Int}
    (hcore : integrateTryCore o modules source target data = .err e effs)
    (h1 : dictFind modules source = some (.dict recd))
    (h2 : dictFind recd "metrics" = some (.dict md))
    (h3 : dictFind md "failure" = some (.int n)) :
    integrate o modules source target data =
      (.error e, effs, dictSet modules source
        (.dict (dictSet recd "metrics" (.dict (dictSet md "failure" (.int (n + 1))))))) := by
  simp [integrate, hcore, bumpMetric_found modules source "failure" h1 h2 h3]

/-- Claim C1 (code bug, evaluated at the failing input): in the scenario
registry, target module `B` was registered with a config that contains an
endpoint (first two conjuncts), yet `integrate("A","B",{x:1,z:2})` performs
no HTTP POST at all — its only delivery effect is a Kafka publish of the
transformed payload to topic `B_data` (third conjunct).  The claim says the
synchronous authenticated POST path executes whenever the target config has
an endpoint; the code instead tests `self.modules[target].get("endpoint")`,
the top level of the registry record (which `register_module` never
populates — the endpoint lives under the `config` key, where
`_call_module_api` itself reads it), so the publish path runs. -/
theorem claim_C1_theorem :
    dictFind modsAB "B" = some (.dict [("config", .dict cfgB), ("status", .str "active"),
      ("metrics", .dict [("success", .int 0), ("failure", .int 0)])]) ∧
    pyGet cfgB "endpoint" = .str "http://b.local" ∧
    (integrate oracleAB modsAB "A" "B" payloadXZ).2.1 =
      [.kafkaSend "B_data" [("y", .int 1)]] :=
  ⟨rfl, rfl, rfl⟩

/-- Claim C2 (code bug, evaluated at the failing input): the claim says a
successful delivery increments the source success counter and returns the
delivery result, and in particular that the scenario call returns the 200
body `{ok:true}` with `A.successCount = 1`.  On the code: (1) the scenario
call returns Python `None`, not `{ok:true}` — the routing bug of C1 sends
it to Kafka — even though `A.successCount` does become 1 (first two
conjuncts); (2) the synchronous API path can never return a 200 body at
all: in a state where the API branch does run (a `B` record carrying a
top-level `endpoint` key), `_call_module_api` raises
`NameError: name 'requests' is not defined` — `requests` is never imported
— before issuing any request, so `integrate` propagates the `NameError`
with no effect performed, `A.failureCount` incremented to 1 and
`A.successCount` still 0 (remaining conjuncts). -/
theorem claim_C2_theorem :
    (integrate oracleAB modsAB "A" "B" payloadXZ).1 = .ok Value.none ∧
    getMetric (integrate oracleAB modsAB "A" "B" payloadXZ).2.2 "A" "success"
      = some (.int 1) ∧
    (integrate oracleAB modsTopEndpoint "A" "B" payloadXZ).1 =
      .error (.nameError "name requests is not defined") ∧
    (integrate oracleAB modsTopEndpoint "A" "B" payloadXZ).2.1 = [] ∧
    getMetric (integrate oracleAB modsTopEndpoint "A" "B" payloadXZ).2.2 "A" "failure"
      = some (.int 1) ∧
    getMetric (integrate oracleAB modsTopEndpoint "A" "B" payloadXZ).2.2 "A" "success"
      = some (.int 0) :=
  ⟨rfl, rfl, rfl, rfl, rfl, rfl⟩

/-- Claim C3, amended: for every payload and every rule carrying a `fields`
entry with string source and target descriptors, when the source field is
absent from the payload (or present with value `None`), applying the rule
writes the target field with value `None` — the target field IS present in
the result, carrying Python `None` (the default of `data.get`); absence of
the source field is not preserved as absence of the target field. -/
theorem claim_C3 (data rule acc : Dict) (s t : String)
    (hf : (dictFind rule "fields").isSome = true)
    (hs : dictFind rule "source" = some (.str s))
    (ht : dictFind rule "target" = some (.str t))
    (hmiss : dictFind data s = Option.none ∨ dictFind data s = some Value.none) :
    applyRule data rule acc = .ok (dictSet acc t Value.none) ∧
    dictFind (dictSet acc t Value.none) t = some Value.none := by
  have hv : pyGet data s = Value.none := by
    rcases hmiss with h | h <;> simp [pyGet, h]
  refine ⟨?_, dictFind_dictSet_self acc t Value.none⟩
  simp [applyRule, hf, hs, ht, pyGetV, hv]

/-- Witness for C3: the scenario rule applied to `{z: 2}` (field `x`
absent) writes `y = None`. -/
theorem claim_C3_witness :
    applyRule [("z", Value.int 2)] ruleXY [] = .ok (dictSet [] "y" Value.none) ∧
    dictFind (dictSet [] "y" Value.none) "y" = some Value.none :=
  claim_C3 [("z", Value.int 2)] ruleXY [] "x" "y" rfl rfl rfl (Or.inl rfl)

/-- Counterexample to C3 as stated: transforming `{z: 2}` under the rule
mapping `x` to `y` — with `x` absent and not explicitly `None` — yields
`{y: None}`: the target field is present with a null value, where the claim
requires it to be absent. -/
theorem claim_C3_counterexample :
    transformLoop [("z", Value.int 2)] [ruleXY] [] = .ok [("y", Value.none)] ∧
    dictFind [("z", Value.int 2)] "x" = Option.none ∧
    (dictFind [("y", Value.none)] "y").isSome = true :=
  ⟨rfl, rfl, rfl⟩

/-- Claim C4, amended: when the integration-permission check returns false
for a registered source module, the call fails with
`ValueError("No integration rule between {source} and {target}.")` — the
embedding of `NoIntegrationRuleError` — and the source failure counter is
incremented by one (the `except` clause of `integrate` counts the
permission failure like any other), with the success counter unchanged. -/
theorem claim_C4 (o : Oracle) (modules : Modules) (source target : String)
    (data : Dict) {recd md : Dict} {n : Int}
    (hdeny : o.hasRule source target = false)
    (h1 : dictFind modules source = some (.dict recd))
    (h2 : dictFind recd "metrics" = some (.dict md))
    (h3 : dictFind md "failure" = some (.int n)) :
    (integrate o modules source target data).1 =
      .error (.valueError ("No integration rule between " ++ source ++ " and " ++ target ++ ".")) ∧
    getMetric (integrate o modules source target data).2.2 source "failure"
      = some (.int (n + 1)) ∧
    getMetric (integrate o modules source target data).2.2 source "success"
      = getMetric modules source "success" := by
  have hcore : integrateTryCore o modules source target data =
      .err (.valueError ("No integration rule between " ++ source ++ " and " ++ target ++ ".")) [] := by
    simp [integrateTryCore, hdeny]
  rw [integrate_err_found o modules source target data _ [] hcore h1 h2 h3]
  refine ⟨rfl, ?_, ?_⟩
  · exact getMetric_dictSet_self modules source "failure" recd md (.int (n + 1))
  · rw [getMetric_dictSet_other modules source "failure" "success" recd md (.int (n + 1)) (by decide)]
    rw [getMetric_eq modules source "success" h1 h2]

/-- Witness for C4: the denying oracle on the scenario registry. -/
theorem claim_C4_witness :
    (integrate oracleDeny modsAB "A" "B" []).1 =
      .error (.valueError ("No integration rule between " ++ "A" ++ " and " ++ "B" ++ ".")) ∧
    getMetric (integrate oracleDeny modsAB "A" "B" []).2.2 "A" "failure" = some (.int (0 + 1)) ∧
    getMetric (integrate oracleDeny modsAB "A" "B" []).2.2 "A" "success"
      = getMetric modsAB "A" "success" :=
  claim_C4 oracleDeny modsAB "A" "B" [] rfl rfl rfl rfl

/-- Counterexample to C4 as stated: with the permission check denying
`A → B`, module `A` had `failure = 0` before the call and `failure = 1`
after it — the claim requires both counters untouched. -/
theorem claim_C4_counterexample :
    (integrate oracleDeny modsAB "A" "B" []).1 =
      .error (.valueError "No integration rule between A and B.") ∧
    getMetric modsAB "A" "failure" = some (.int 0) ∧
    getMetric (integrate oracleDeny modsAB "A" "B" []).2.2 "A" "failure" = some (.int 1) :=
  ⟨rfl, rfl, rfl⟩

/-- Claim C5, amended: when the permission check allows the pair and the
transformation succeeds but the target id is not registered, the call fails
with `KeyError(target)` from the unchecked dereference
`self.modules[target]` on line 52 — there is no unknown-module check before
dereferencing the registry record — and the registered source module gets
its failure counter incremented by one (success unchanged), rather than its
metrics being left unchanged. -/
theorem claim_C5 (o : Oracle) (modules : Modules) (source target : String)
    (data td : Dict) {recd md : Dict} {n : Int}
    (hallow : o.hasRule source target = true)
    (htr : transform_data o data source target = .ok td)
    (htgt : dictFind modules target = Option.none)
    (h1 : dictFind modules source = some (.dict recd))
    (h2 : dictFind recd "metrics" = some (.dict md))
    (h3 : dictFind md "failure" = some (.int n)) :
    (integrate o modules source target data).1 = .error (.keyError target) ∧
    getMetric (integrate o modules source target data).2.2 source "failure"
      = some (.int (n + 1)) ∧
    getMetric (integrate o modules source target data).2.2 source "success"
      = getMetric modules source "success" := by
  have hcore : integrateTryCore o modules source target data = .err (.keyError target) [] := by
    simp [integrateTryCore, hallow, htr, htgt]
  rw [integrate_err_found o modules source target data _ [] hcore h1 h2 h3]
  refine ⟨rfl, ?_, ?_⟩
  · exact getMetric_dictSet_self modules source "failure" recd md (.int (n + 1))
  · rw [getMetric_dictSet_other modules source "failure" "success" recd md (.int (n + 1)) (by decide)]
    rw [getMetric_eq modules source "success" h1 h2]

/-- Witness for C5: integrating from `A` to the unregistered id `C`. -/
theorem claim_C5_witness :
    (integrate oracleAB modsAB "A" "C" []).1 = .error (.keyError "C") ∧
    getMetric (integrate oracleAB modsAB "A" "C" []).2.2 "A" "failure" = some (.int (0 + 1)) ∧
    getMetric (integrate oracleAB modsAB "A" "C" []).2.2 "A" "success"
      = getMetric modsAB "A" "success" :=
  claim_C5 oracleAB modsAB "A" "C" [] [("y", Value.none)] rfl rfl rfl rfl rfl rfl

/-- Counterexample to C5 as stated: integrating from `A` to the
unregistered id `C` raises `KeyError("C")` (not a pre-dereference
unknown-module error) and moves `A.failureCount` from 0 to 1, where the
claim requires the source metrics unchanged. -/
theorem claim_C5_counterexample :
    (integrate oracleAB modsAB "A" "C" []).1 = .error (.keyError "C") ∧
    getMetric modsAB "A" "failure" = some (.int 0) ∧
    getMetric (integrate oracleAB modsAB "A" "C" []).2.2 "A" "failure" = some (.int 1) :=
  ⟨rfl, rfl, rfl⟩

/-- Claim C6: for every integrate call by a registered source module (with
well-formed integer metrics), any failure arising after the permission
check — in the rule fetch, the transformation, or the delivery — makes the
call propagate the originating error unchanged while incrementing the
source failure counter by exactly one, leaving the success counter as it
was. -/
theorem claim_C6 (o : Oracle) (modules : Modules) (source target : String)
    (data : Dict) (e : Err) (effs : List Effect) {recd md : Dict} {n : Int}
    (hallow : o.hasRule source target = true)
    (hcore : integrateTryCore o modules source target data = .err e effs)
    (h1 : dictFind modules source = some (.dict recd))
    (h2 : dictFind recd "metrics" = some (.dict md))
    (h3 : dictFind md "failure" = some (.int n)) :
    (integrate o modules source target data).1 = .error e ∧
    getMetric (integrate o modules source target data).2.2 source "failure"
      = some (.int (n + 1)) ∧
    getMetric (integrate o modules source target data).2.2 source "success"
      = getMetric modules source "success" := by
  rw [integrate_err_found o modules source target data e effs hcore h1 h2 h3]
  refine ⟨rfl, ?_, ?_⟩
  · exact getMetric_dictSet_self modules source "failure" recd md (.int (n + 1))
  · rw [getMetric_dictSet_other modules source "failure" "success" recd md (.int (n + 1)) (by decide)]
    rw [getMetric_eq modules source "success" h1 h2]

/-- Witness for C6: rule fetch raising (knowledge store unavailable). -/
theorem claim_C6_witness :
    (integrate oracleRulesFail modsAB "A" "B" []).1 = .error (.valueError "store down") ∧
    getMetric (integrate oracleRulesFail modsAB "A" "B" []).2.2 "A" "failure"
      = some (.int (0 + 1)) ∧
    getMetric (integrate oracleRulesFail modsAB "A" "B" []).2.2 "A" "success"
      = getMetric modsAB "A" "success" :=
  claim_C6 oracleRulesFail modsAB "A" "B" [] (.valueError "store down") []
    rfl rfl rfl rfl rfl

/-- Claim C7: `register_module` is atomic on failure — registering an
already-present id fails with the duplicate `ValueError` and returns the
registry unchanged (the first record untouched); a schema-validation
failure propagates and aborts with the registry unchanged (no partial
insert); a successful registration inserts exactly the record with the
given config, status `active`, and both counters zero, and emits the
registration notification. -/
theorem claim_C7 (validate : Except Err Unit) (modules : Modules)
    (mid : String) (config : Dict) :
    ((dictFind modules mid).isSome = true →
      register_module validate modules mid config =
        (.error (.valueError ("Module " ++ mid ++ " already registered.")), [], modules)) ∧
    (dictFind modules mid = Option.none →
      ∀ e : Err, validate = .error e →
        register_module validate modules mid config = (.error e, [], modules)) ∧
    (dictFind modules mid = Option.none → validate = .ok () →
      register_module validate modules mid config =
        (.ok (), [.dashboard ("Module " ++ mid ++ " registered.")],
         dictSet modules mid
           (.dict [("config", .dict config), ("status", .str "active"),
                   ("metrics", .dict [("success", .int 0), ("failure", .int 0)])]))) := by
  refine ⟨?_, ?_, ?_⟩
  · intro h; simp [register_module, h]
  · intro h e he; simp [register_module, h, he]
  · intro h hv; simp [register_module, h, hv]

/-- Witness for C7: a duplicate registration of `A`, a schema failure, and
a fresh successful registration, each at concrete inputs. -/
theorem claim_C7_witness :
    (register_module (.ok ()) modsAB "A" [] =
      (.error (.valueError ("Module " ++ "A" ++ " already registered.")), [], modsAB)) ∧
    (register_module (.error (.schemaError "no schema")) [] "C" [] =
      (.error (.schemaError "no schema"), [], [])) ∧
    (register_module (.ok ()) [] "C" [("k", Value.int 7)] =
      (.ok (), [.dashboard ("Module " ++ "C" ++ " registered.")],
       dictSet [] "C"
         (.dict [("config", .dict [("k", Value.int 7)]), ("status", .str "active"),
                 ("metrics", .dict [("success", .int 0), ("failure", .int 0)])]))) :=
  ⟨(claim_C7 (.ok ()) modsAB "A" []).1 rfl,
   (claim_C7 (.error (.schemaError "no schema")) [] "C" []).2.1 rfl (.schemaError "no schema") rfl,
   (claim_C7 (.ok ()) [] "C" [("k", Value.int 7)]).2.2 rfl rfl⟩

/-- Claim C8: for every payload, transforming with an empty rule sequence
yields the empty payload — the result of `_transform_data` contains only
fields written by some rule, so with no rules nothing is carried through,
regardless of the contents of the input payload. -/
theorem claim_C8 (o : Oracle) (data : Dict) (source target : String)
    (h : o.rules source target = .ok []) :
    transform_data o data source target = .ok [] := by
  simp [transform_data, h, transformLoop]

/-- Witness for C8: the denying oracle serves an empty rule list; the
scenario payload transforms to the empty dict. -/
theorem claim_C8_witness :
    transform_data oracleDeny payloadXZ "A" "B" = .ok [] :=
  claim_C8 oracleDeny payloadXZ "A" "B" rfl

/-- Claim C9, amended: the transform loop skips exactly the rules that lack
a `fields` key — such a rule contributes no field and causes no failure,
whatever other keys it carries; a rule that does carry `fields` but lacks a
`source` or `target` descriptor is not skipped: it raises `KeyError` and
fails the transformation (see the counterexample). -/
theorem claim_C9 (data rule acc : Dict) (rest : List Dict)
    (h : dictFind rule "fields" = Option.none) :
    applyRule data rule acc = .ok acc ∧
    transformLoop data (rule :: rest) acc = transformLoop data rest acc := by
  have ha : applyRule data rule acc = .ok acc := by
    simp [applyRule, h]
  exact ⟨ha, by simp [transformLoop, ha]⟩

/-- Witness for C9: a rule with source and target descriptors but no
`fields` key is skipped in front of the scenario rule. -/
theorem claim_C9_witness :
    applyRule payloadXZ [("source", Value.str "x"), ("target", Value.str "y")] [] = .ok [] ∧
    transformLoop payloadXZ ([("source", Value.str "x"), ("target", Value.str "y")] :: [ruleXY]) []
      = transformLoop payloadXZ [ruleXY] [] :=
  claim_C9 payloadXZ [("source", Value.str "x"), ("target", Value.str "y")] [] [ruleXY] rfl

/-- Counterexample to C9 as stated: the rule `{fields: 1}` carries no
source/target descriptor at all, yet transforming with it does not skip it —
it raises `KeyError("source")` and the transformation fails. -/
theorem claim_C9_counterexample :
    transformLoop [] [[("fields", Value.int 1)]] [] = .error (.keyError "source") ∧
    dictFind [("fields", Value.int 1)] "source" = Option.none ∧
    dictFind [("fields", Value.int 1)] "target" = Option.none :=
  ⟨rfl, rfl, rfl⟩

/-- Claim C10: when the source id is not registered, any error raised in
the `try` body of `integrate` reaches the `except` clause, whose
unconditional `self.modules[source]` dereference raises `KeyError(source)`;
the caller observes that `KeyError` in place of the originating error and
the registry — hence every counter of every module — is unchanged.  The
second conjunct covers the publish path, where the success increment itself
is the first error raised. -/
theorem claim_C10 (o : Oracle) (modules : Modules) (source target : String)
    (data : Dict) (hsrc : dictFind modules source = Option.none) :
    (∀ e effs, integrateTryCore o modules source target data = .err e effs →
      integrate o modules source target data = (.error (.keyError source), effs, modules)) ∧
    (∀ effs, integrateTryCore o modules source target data = .publishDone effs →
      integrate o modules source target data = (.error (.keyError source), effs, modules)) := by
  have hb : bumpMetric modules source "failure" = .error (.keyError source) :=
    bumpMetric_absent modules source "failure" hsrc
  have hb2 : bumpMetric modules source "success" = .error (.keyError source) :=
    bumpMetric_absent modules source "success" hsrc
  constructor
  · intro e effs hcore
    simp [integrate, hcore, hb]
  · intro effs hcore
    simp [integrate, hcore, hb, hb2]

/-- Witness for C10: the unregistered source `Z` with a denied pair — the
originating `ValueError` is replaced by `KeyError("Z")` and the registry is
unchanged. -/
theorem claim_C10_witness :
    integrate oracleDeny modsAB "Z" "B" [] =
      (.error (.keyError "Z"), [], modsAB) :=
  (claim_C10 oracleDeny modsAB "Z" "B" [] rfl).1
    (.valueError "No integration rule between Z and B.") [] rfl

end ACDEH
